import Mathlib

/-!
Shallow embedding of the boudams training/persistence core
(src/boudams/trainer.py, src/boudams/tagger.py, src/boudams/utils.py).

Python floats are modelled by `FloatVal` (a rational together with the three
IEEE special values); Python exceptions are modelled by `Option`/`Except`
(`none` = the call raises); external collaborators (torch scheduler state,
gzip, json, sklearn, leven) are modelled by their documented contracts, each
at its definition site.
-/

/-- Model of a Python float as used for loss values: an exact rational or one
of the IEEE special values.  Rounding of finite arithmetic is not modelled;
the claims under study depend only on comparisons and on the special
values. -/
inductive FloatVal where
  | finite (q : ℚ)
  | inf
  | neginf
  | nan
deriving DecidableEq, Repr

/-- IEEE `<` on modelled floats: any comparison with NaN is false;
-inf is below everything else; +inf is above everything else. -/
def FloatVal.lt : FloatVal → FloatVal → Bool
  | .nan, _ => false
  | _, .nan => false
  | .neginf, .neginf => false
  | .neginf, _ => true
  | _, .neginf => false
  | .inf, _ => false
  | .finite _, .inf => true
  | .finite a, .finite b => decide (a < b)

/-- IEEE `!= +inf` on modelled floats: NaN compares unequal to everything,
so `nan != inf` is true. -/
def FloatVal.neInf : FloatVal → Bool
  | .inf => false
  | _ => true

/-- Value of `math.exp` on a modelled float, separated from `FloatVal` so the
exact real `e^q` can be carried symbolically. -/
inductive ExpVal where
  | expOf (q : ℚ)
  | zero
  | inf
  | nan
deriving DecidableEq, Repr

/-- Largest finite double is about `1.7976931348623157e308`; `math.exp x`
overflows (raises `OverflowError`) for finite `x` above `log` of that bound,
`709.782712893384...`. -/
def expOverflowBound : ℚ := 709782712893384 / 1000000000000

/-- Contract of the CPython `math.exp` (external library): returns `e^x` for
representable finite input, `nan` for NaN input (no exception), `+inf` for
`+inf`, `0.0` for `-inf`, and raises `OverflowError` (modelled as `none`) for
finite input beyond the overflow bound. -/
def mathExp : FloatVal → Option ExpVal
  | .nan => some .nan
  | .inf => some .inf
  | .neginf => some .zero
  | .finite q => if q ≤ expOverflowBound then some (.expOf q) else none

/-- Embedding of `Trainer._get_perplexity` (trainer.py:316-320):
`try: return math.exp(loss) except: return float("inf")`. -/
def getPerplexity (loss : FloatVal) : ExpVal :=
  match mathExp loss with
  | some v => v
  | none => .inf

/-- Embedding of the guard of `Trainer._temp_save` (trainer.py:161-165):
the checkpoint is written iff
`current_score.loss != float("inf") and current_score.loss < best_score`. -/
def tempSaveWrites (bestScore currentLoss : FloatVal) : Bool :=
  currentLoss.neInf && currentLoss.lt bestScore

/-- Per-epoch observations of the run loop.  The dev loss comes from
`Trainer.evaluate`; the scheduler fields are the state of the external
`torch.optim.lr_scheduler.ReduceLROnPlateau` after `lr_scheduler.step`
(`num_bad_epochs` and the current learning rate), read by the trainer
through `LRScheduler.steps` / `LRScheduler.lr` (trainer.py:136-146). -/
structure EpochObs where
  devLoss : FloatVal
  schedSteps : ℕ
  schedLr : ℚ
deriving DecidableEq, Repr

/-- Observable events of one iteration of the epoch loop of `Trainer.run`. -/
structure EpochTrace where
  trained : Bool
  wrote : Bool
  raised : Bool
deriving DecidableEq, Repr

/-- Embedding of the epoch loop of `Trainer.run` (trainer.py:204-262).
`bestValidLoss` is the variable bound at trainer.py:195; the call
`self._temp_save(fid, best_valid_loss, dev_score)` at trainer.py:232 discards
the returned updated best, so the loop recurses with `bestValidLoss`
unchanged.  The early-stop test (trainer.py:249) raises only when
`lr_scheduler.steps >= lr_patience and lr_scheduler.lr < min_lr` (strict);
the `except EarlyStopException` handler (trainer.py:261-262) only prints and
does not break, so the remaining epochs still run.  (`KeyboardInterrupt`, an
asynchronous external signal, is not modelled.) -/
def runEpochs (lrPatience : ℕ) (minLr : ℚ) (bestValidLoss : FloatVal) :
    List EpochObs → List EpochTrace
  | [] => []
  | e :: rest =>
    let wrote := tempSaveWrites bestValidLoss e.devLoss
    let raised := decide (lrPatience ≤ e.schedSteps) && decide (e.schedLr < minLr)
    { trained := true, wrote := wrote, raised := raised }
      :: runEpochs lrPatience minLr bestValidLoss rest

/-- Outcome of a whole `Trainer.run`. -/
structure RunOutcome where
  epochs : List EpochTrace
  finalWrite : Bool
  checkpointLoaded : Bool
  noModelReported : Bool
  archiveSaved : Bool
deriving DecidableEq, Repr

/-- Embedding of `Trainer.run` after the loop (trainer.py:264-273): one more
`_temp_save` with the still-unchanged `best_valid_loss` and the last dev
score (initialized to an all-infinite score at trainer.py:197 in case no
epoch ran); then `torch.load(fid)` succeeds iff some checkpoint write ever
created the file, and the `FileNotFoundError` handler prints that no model
was saved; `self.save(fpath, csv_content)` runs unconditionally. -/
def runModel (lrPatience : ℕ) (minLr : ℚ) (obs : List EpochObs) : RunOutcome :=
  let epochs := runEpochs lrPatience minLr FloatVal.inf obs
  let lastDevLoss := (obs.map EpochObs.devLoss).getLastD FloatVal.inf
  let finalWrite := tempSaveWrites FloatVal.inf lastDevLoss
  let ckpt := epochs.any EpochTrace.wrote || finalWrite
  { epochs := epochs
    finalWrite := finalWrite
    checkpointLoaded := ckpt
    noModelReported := !ckpt
    archiveSaved := true }

/-- Names of the three members of the model archive.  They stand for the
strings `settings.json.zip`, `vocabulary.json` and `state_dict.pt` used by
`Trainer.save` (trainer.py:289-301) and `Seq2SeqTokenizer.load`
(tagger.py:175-197). -/
inductive TarEntryName where
  | settingsJsonZip
  | vocabularyJson
  | stateDictPt
deriving DecidableEq, Repr

/-- Byte sequences (file contents). -/
abbrev Bytes := List ℕ

/-- Tar container modelled as named members with raw contents. -/
abbrev TarArchive := List (TarEntryName × Bytes)

/-- Extracting a member by name (`tar.extractfile` / `tar.extract`); a
missing member raises `KeyError`, modelled as `none`. -/
def tarExtract (tar : TarArchive) (name : TarEntryName) : Option Bytes :=
  (tar.find? (fun e => e.1 = name)).map (fun e => e.2)

/-- Contract of the external gzip library as used by `utils.add_gzip_to_tar`
(utils.py:41-45): an RFC 1952 stream starts with the magic bytes
`0x1f 0x8b` (31, 139); the payload is kept verbatim here so that
decompression is exactly inverse. -/
def gzipCompress (data : Bytes) : Bytes := 31 :: 139 :: data

/-- Contract of `gzip.open(...).read()` as used by `utils.get_gzip_from_tar`
(utils.py:48-49): recovers the payload of a gzip stream, raising (`none`)
on anything that does not start with the gzip magic bytes. -/
def gzipDecompress : Bytes → Option Bytes
  | 31 :: 139 :: rest => some rest
  | _ => none

/-- Contract of the stdlib `json.load` / `json.loads` acceptance test at the
byte level: after optional JSON whitespace, a document must begin with one of
`{ [ " -` or a digit or the first letter of `true` / `false` / `null`;
any other first byte raises `JSONDecodeError`.  (We model only whether the
parse succeeds, not the parsed value.) -/
def jsonLoadOk : Bytes → Bool
  | [] => false
  | b :: rest =>
    if b == 32 || b == 9 || b == 10 || b == 13 then jsonLoadOk rest
    else b == 123 || b == 91 || b == 34 || b == 45
      || (decide (48 ≤ b) && decide (b ≤ 57))
      || b == 116 || b == 102 || b == 110

/-- Embedding of the archive written by `Trainer.save` (trainer.py:289-301):
the settings JSON and the vocabulary JSON are both written through
`utils.add_gzip_to_tar`, i.e. gzip-compressed; the state dict is added
uncompressed. -/
def trainerSaveArchive (settingsJson vocabJson stateDict : Bytes) : TarArchive :=
  [(.settingsJsonZip, gzipCompress settingsJson),
   (.vocabularyJson, gzipCompress vocabJson),
   (.stateDictPt, stateDict)]

/-- Embedding of `Seq2SeqTokenizer.load` (tagger.py:175-197).  The settings
member is read through `utils.get_gzip_from_tar` (gunzip, then
`json.loads`).  The vocabulary member is extracted with `tar.extract` and
then read with a plain `open` + `json.load` (tagger.py:182-185) — with no
decompression step.  The state dict is then extracted and loaded.  `none`
models any exception escaping `load`. -/
def tokenizerLoad (tar : TarArchive) : Option (Bytes × Bytes × Bytes) := do
  let settingsRaw ← tarExtract tar .settingsJsonZip
  let settingsJson ← gzipDecompress settingsRaw
  if jsonLoadOk settingsJson then
    let vocabRaw ← tarExtract tar .vocabularyJson
    if jsonLoadOk vocabRaw then
      let stateDict ← tarExtract tar .stateDictPt
      return (settingsJson, vocabRaw, stateDict)
    else none
  else none

/-- Fuel-indexed Levenshtein recursion (fuel makes the naive recursion
structural, so concrete values reduce in the kernel). -/
def levFuel : ℕ → List Char → List Char → ℕ
  | _, [], t => t.length
  | _, s, [] => s.length
  | 0, _, _ => 0
  | fuel + 1, a :: s, b :: t =>
    if a = b then levFuel fuel s t
    else 1 + min (levFuel fuel s t)
            (min (levFuel fuel (a :: s) t) (levFuel fuel s (b :: t)))

/-- Contract of the external `leven.levDist`: the minimum number of
single-character insertions, deletions and substitutions transforming one
text into the other, by the textbook recursion.  The fuel
`s.length + t.length` strictly dominates every recursive call, so the
`fuel = 0` branch is never taken. -/
def levDist (s t : List Char) : ℕ := levFuel (s.length + t.length) s t

/-- Modelled from the spec: `LabelEncoder.reverse_batch` /
`transcribe_batch` live in `boudams/encoder.py`, which is not under `src/`.
Per the spec (section 4.3), decoding maps an id sequence to text through the
vocabulary, ignoring pad ids (`ignore=(pad_token_index,)` at
trainer.py:74-79); `itos` is the id-to-character table.  (The `masked=srcs`
decoding detail is taken as not affecting which characters survive for
unmasked use; the sources are threaded through but unused here.) -/
def decodeIds (itos : ℕ → Char) (padIdx : ℕ) (ids : List ℕ) : List Char :=
  (ids.filter (fun i => i ≠ padIdx)).map itos

/-- Contract of the external `sklearn.metrics.accuracy_score` on two label
sequences: the fraction of positions where they agree.  It raises (`none`)
when the lengths are inconsistent; the degenerate empty case is also
modelled as an error (no claim exercises it). -/
def accuracyScore (t p : List ℕ) : Option ℚ :=
  if t.length = p.length ∧ t ≠ [] then
    some ((((t.zip p).countP (fun x => decide (x.1 = x.2))) : ℚ) / (t.length : ℚ))
  else none

/-- Contract of `statistics.mean`: arithmetic mean, raising
`StatisticsError` (`none`) on empty data. -/
def pymean (l : List ℚ) : Option ℚ :=
  if l = [] then none else some (l.sum / (l.length : ℚ))

/-- Embedding of `Scorer.compute` (trainer.py:64-91).  First the per-example
accuracies over the raw id sequences (`zip(self.trues, self.preds)`,
trainer.py:65-68); then, over the decoded pairs, the Levenshtein distance
and the distance divided by `len(tr_true)` — a `ZeroDivisionError` (`none`)
when a decoded true text is empty (trainer.py:82-83); finally the three
`statistics.mean` calls (trainer.py:89-91).  The result triple is
`(accuracy, leven, leven_per_char)`. -/
def scorerCompute (itos : ℕ → Char) (padIdx : ℕ)
    (trues preds srcs : List (List ℕ)) : Option (ℚ × ℚ × ℚ) :=
  match (trues.zip preds).mapM (fun tp => accuracyScore tp.1 tp.2) with
  | none => none
  | some accs =>
    match ((trues.map (decodeIds itos padIdx)).zip
        (preds.map (decodeIds itos padIdx))).mapM
          (fun tp =>
            if tp.1.length = 0 then none
            else some (((levDist tp.1 tp.2 : ℕ) : ℚ) / (tp.1.length : ℚ))) with
    | none => none
    | some lpcs =>
      match pymean accs,
        pymean (((trues.map (decodeIds itos padIdx)).zip
          (preds.map (decodeIds itos padIdx))).map
            (fun tp => ((levDist tp.1 tp.2 : ℕ) : ℚ))),
        pymean lpcs with
      | some accMean, some levMean, some lpcMean =>
        some (accMean, levMean, lpcMean)
      | _, _, _ => none

/-- Accumulators of a `Scorer` (trainer.py:51-62): `trues`, `preds`, `srcs`
(the other fields are unused by the claims under study). -/
structure ScorerAcc where
  trues : List (List ℕ)
  preds : List (List ℕ)
  srcs : List (List ℕ)
deriving DecidableEq, Repr

/-- Python `zip` over three sequences: truncates to the shortest. -/
def zip3 {α β γ : Type} : List α → List β → List γ → List (α × β × γ)
  | a :: as, b :: bs, c :: cs => (a, b, c) :: zip3 as bs cs
  | _, _, _ => []

/-- Embedding of `Scorer.register_batch` (trainer.py:108-124):
`out = hypotheses.tolist()`, `exp = targets.tolist()`, `src = src.tolist()`,
then `for y_true, y_pred, x in zip(exp, out, src)` appends `y_true` to
`trues`, `y_pred` to `preds` and `x` to `srcs`. -/
def registerBatch (s : ScorerAcc) (hypotheses targets src : List (List ℕ)) :
    ScorerAcc :=
  (zip3 targets hypotheses src).foldl
    (fun st t =>
      { st with
        trues := st.trues ++ [t.1]
        preds := st.preds ++ [t.2.1]
        srcs := st.srcs ++ [t.2.2] }) s

/-- Python true division on the epoch-loss average `epoch_loss /
iterator.batch_count` (trainer.py:354, 384): `ZeroDivisionError` on a zero
denominator. -/
def pydiv (a : ℚ) (b : ℕ) : Option ℚ :=
  if b = 0 then none else some (a / (b : ℚ))

/-- Score record built at the end of an epoch (`Score` namedtuple,
trainer.py:33, minus the scorer back-reference). -/
structure ScoreModel where
  loss : ℚ
  perplexity : ExpVal
  accuracy : ℚ
  leven : ℚ
  levenPerChar : ℚ
deriving DecidableEq, Repr

/-- Embedding of `Trainer._train_epoch` (trainer.py:322-356) after the
external per-batch gradient calls: the loop over `range(0,
iterator.batch_count)` accumulates one loss per batch (`batchLosses`, so
`batch_count = batchLosses.length`), then
`loss = epoch_loss / iterator.batch_count` (trainer.py:354) and the `Score`
is assembled from the scorer's accumulated contents. -/
def trainEpochModel (itos : ℕ → Char) (padIdx : ℕ) (batchLosses : List ℚ)
    (trues preds srcs : List (List ℕ)) : Option ScoreModel := do
  let epochLoss := batchLosses.sum
  let loss ← pydiv epochLoss batchLosses.length
  let m ← scorerCompute itos padIdx trues preds srcs
  return { loss := loss, perplexity := getPerplexity (.finite loss),
           accuracy := m.1, leven := m.2.1, levenPerChar := m.2.2 }

/-- Embedding of `Trainer.evaluate` (trainer.py:358-387): same shape as
`_train_epoch` (no optimizer updates), ending in the same
`loss = epoch_loss / iterator.batch_count` (trainer.py:384) and `Score`
construction. -/
def evaluateModel (itos : ℕ → Char) (padIdx : ℕ) (batchLosses : List ℚ)
    (trues preds srcs : List (List ℕ)) : Option ScoreModel := do
  let epochLoss := batchLosses.sum
  let loss ← pydiv epochLoss batchLosses.length
  let m ← scorerCompute itos padIdx trues preds srcs
  return { loss := loss, perplexity := getPerplexity (.finite loss),
           accuracy := m.1, leven := m.2.1, levenPerChar := m.2.2 }

/-- Small concrete id-to-character table used by concrete evaluations:
3 ↦ a, 4 ↦ b, 5 ↦ c, 6 ↦ d, pad id 0. -/
def demoItos : ℕ → Char := fun n =>
  if n = 3 then 'a' else if n = 4 then 'b'
  else if n = 5 then 'c' else if n = 6 then 'd' else '?'

/-- Sanity checks of the edit-distance model on classic examples. -/
theorem levDist_examples :
    levDist ['a','b','c'] ['a','b','d'] = 1 ∧
    levDist ['k','i','t','t','e','n'] ['s','i','t','t','i','n','g'] = 3 ∧
    levDist [] ['a','b','c'] = 3 ∧
    levDist ['a','b','c'] [] = 3 ∧
    levDist ['f','l','a','w'] ['l','a','w','n'] = 2 ∧
    levDist ['a','b'] ['a','b'] = 0 := by decide

/-- A dev loss of `+inf` never passes the `_temp_save` guard, whatever the
best score is (`loss != float("inf")` is false). -/
theorem tempSaveWrites_of_inf (b : FloatVal) : tempSaveWrites b .inf = false := rfl

/-- A dev loss of NaN never passes the `_temp_save` guard, whatever the best
score is (`nan < best` is false in IEEE comparison). -/
theorem tempSaveWrites_of_nan (b : FloatVal) : tempSaveWrites b .nan = false := by
  cases b <;> rfl

/-- A property holding for every member of a list and for the default also
holds for `getLastD`. -/
theorem getLastD_prop {α : Type} (P : α → Prop) :
    ∀ (l : List α) (d : α), (∀ x ∈ l, P x) → P d → P (l.getLastD d)
  | [], _, _, hd => hd
  | a :: l, d, h, _ => by
    rw [List.getLastD_cons]
    exact getLastD_prop P l a (fun x hx => h x (List.mem_cons_of_mem a hx))
      (h a (List.mem_cons_self a l))

/-- If no epoch's dev loss passes the `_temp_save` guard against the given
best score, no iteration of the epoch loop writes a checkpoint. -/
theorem runEpochs_any_wrote (p : ℕ) (m : ℚ) (b : FloatVal) :
    ∀ l : List EpochObs, (∀ e ∈ l, tempSaveWrites b e.devLoss = false) →
      (runEpochs p m b l).any EpochTrace.wrote = false
  | [], _ => rfl
  | e :: l, h => by
    have he := h e (List.mem_cons_self e l)
    have ih := runEpochs_any_wrote p m b l
      (fun x hx => h x (List.mem_cons_of_mem e hx))
    simp [runEpochs, he, ih]

/-- The append-only fold underlying `registerBatch`, characterized. -/
theorem registerBatch_foldl (L : List (List ℕ × List ℕ × List ℕ)) :
    ∀ s : ScorerAcc,
      L.foldl (fun st t =>
        { st with
          trues := st.trues ++ [t.1]
          preds := st.preds ++ [t.2.1]
          srcs := st.srcs ++ [t.2.2] }) s
      = { trues := s.trues ++ L.map (fun t => t.1)
          preds := s.preds ++ L.map (fun t => t.2.1)
          srcs := s.srcs ++ L.map (fun t => t.2.2) } := by
  induction L with
  | nil => intro s; simp
  | cons a L ih =>
    intro s
    rw [List.foldl_cons, ih]
    simp

/-- Componentwise characterization of the three-way truncating zip: each
projection is a `take` at the minimum of the three lengths. -/
theorem zip3_maps {α β γ : Type} :
    ∀ (a : List α) (b : List β) (c : List γ),
      (zip3 a b c).map (fun t => t.1)
          = a.take (min a.length (min b.length c.length)) ∧
      (zip3 a b c).map (fun t => t.2.1)
          = b.take (min a.length (min b.length c.length)) ∧
      (zip3 a b c).map (fun t => t.2.2)
          = c.take (min a.length (min b.length c.length))
  | [], b, c => by simp [zip3]
  | a :: as, [], c => by simp [zip3]
  | a :: as, b :: bs, [] => by simp [zip3]
  | a :: as, b :: bs, c :: cs => by
    obtain ⟨h1, h2, h3⟩ := zip3_maps as bs cs
    simp [zip3, Nat.succ_min_succ, h1, h2, h3]

/-- `mapM` over `Option` fails as soon as one element fails. -/
theorem mapM_none {α β : Type} (f : α → Option β) :
    ∀ l : List α, (∃ x ∈ l, f x = none) → l.mapM f = none
  | a :: l, h => by
    obtain ⟨x, hx, hfx⟩ := h
    rcases List.mem_cons.mp hx with rfl | hxl
    · rw [List.mapM_cons, hfx]; rfl
    · cases hfa : f a with
      | none => rw [List.mapM_cons, hfa]; rfl
      | some y =>
        rw [List.mapM_cons, hfa, mapM_none f l ⟨x, hxl, hfx⟩]
        rfl

/-- Any member of the first list appears, decoded, as the first component of
a pair of the zipped decoded lists, when the raw lists have equal length. -/
theorem zip_map_pair_mem {f : List ℕ → List Char} :
    ∀ (ts ps : List (List ℕ)), ts.length = ps.length → ∀ t ∈ ts,
      ∃ p, (f t, f p) ∈ (ts.map f).zip (ps.map f)
  | t' :: ts, p' :: ps, hlen, t, ht => by
    rcases List.mem_cons.mp ht with rfl | hts
    · exact ⟨p', List.mem_cons_self _ _⟩
    · obtain ⟨p, hp⟩ := zip_map_pair_mem ts ps (Nat.succ_injective hlen) t hts
      exact ⟨p, List.mem_cons_of_mem _ hp⟩

/-- C1: the claim says a checkpoint write happens in an epoch iff its dev
loss is finite and strictly below the best of the earlier epochs — so for
dev losses [2.0, 1.5, 1.8, 1.2] the third epoch must not write.  The code
disagrees: `Trainer.run` discards the best score returned by `_temp_save`
(trainer.py:232), so `best_valid_loss` stays `+inf` and every epoch with a
non-infinite, non-NaN dev loss writes — here all four epochs write. -/
theorem C1_checkpoint_writes_every_epoch :
    (runModel 10 (1/1000000)
      [⟨.finite 2, 0, 1⟩, ⟨.finite (3/2), 0, 1⟩,
       ⟨.finite (9/5), 0, 1⟩, ⟨.finite (6/5), 0, 1⟩]).epochs.map EpochTrace.wrote
      = [true, true, true, true] := by decide

/-- C2: the claim says `Trainer.save` followed by `Seq2SeqTokenizer.load`
succeeds and round-trips, and in particular that the `vocabulary.json` entry
written by `save` can be read back by `load`.  The code disagrees: `save`
writes `vocabulary.json` gzip-compressed, while `load` reads it back with a
plain `json.load` and no decompression, which rejects the gzip magic bytes —
so loading any archive produced by `save` raises. -/
theorem C2_load_of_save_fails (settingsJson vocabJson stateDict : Bytes) :
    tokenizerLoad (trainerSaveArchive settingsJson vocabJson stateDict)
      = none := by
  cases hs : jsonLoadOk settingsJson <;>
    simp [tokenizerLoad, trainerSaveArchive, tarExtract, gzipCompress,
      gzipDecompress, jsonLoadOk, hs]

/-- C3: the claim says that bad-epoch count ≥ patience together with
learning rate ≤ min_lr raises the early stop and terminates the loop within
that epoch.  The code disagrees twice: the test at trainer.py:249 requires
the learning rate to be strictly below `min_lr`, so at `lr = min_lr` nothing
is raised (first scenario below); and even when the exception is raised, the
handler at trainer.py:261-262 has no `break`, so the following epoch still
trains (second scenario below). -/
theorem C3_no_stop_at_min_lr_boundary :
    ((runModel 2 (1/1000000)
        [⟨.finite 1, 5, 1/1000000⟩, ⟨.finite 1, 6, 1/1000000⟩]).epochs
      = [⟨true, true, false⟩, ⟨true, true, false⟩]) ∧
    ((runModel 2 (1/1000000)
        [⟨.finite 1, 5, 1/2000000⟩, ⟨.finite 1, 6, 1/2000000⟩]).epochs
      = [⟨true, true, true⟩, ⟨true, true, true⟩]) := by
  refine ⟨?_, ?_⟩ <;>
    simp [runModel, runEpochs, tempSaveWrites, FloatVal.neInf, FloatVal.lt] <;>
    norm_num

/-- C4: the claim says that once EarlyStopException is raised no further
training or evaluation epochs run and the run proceeds directly to final
save.  The code disagrees: the `except EarlyStopException` handler
(trainer.py:261-262) only prints and does not `break`, so after the raise in
epoch 1 epochs 2 and 3 still train (and re-raise). -/
theorem C4_epochs_continue_after_early_stop :
    (runModel 1 (1/100)
      [⟨.finite 2, 3, 1/200⟩, ⟨.finite 2, 3, 1/200⟩,
       ⟨.finite 2, 3, 1/200⟩]).epochs.map EpochTrace.raised
      = [true, true, true] ∧
    (runModel 1 (1/100)
      [⟨.finite 2, 3, 1/200⟩, ⟨.finite 2, 3, 1/200⟩,
       ⟨.finite 2, 3, 1/200⟩]).epochs.map EpochTrace.trained
      = [true, true, true] := by
  refine ⟨?_, ?_⟩ <;>
    simp [runModel, runEpochs, tempSaveWrites, FloatVal.neInf, FloatVal.lt] <;>
    norm_num

/-- C5 counterexample: the claim says every loss that does not exponentiate
cleanly or is otherwise invalid — explicitly including NaN — yields +∞.  But
`math.exp(nan)` returns NaN without raising, so `_get_perplexity(nan)` is
NaN, not +∞. -/
theorem C5_nan_loss_counterexample :
    getPerplexity .nan = .nan ∧ ExpVal.nan ≠ ExpVal.inf := by decide

/-- C5 (amended): `_get_perplexity` never raises; it returns `math.exp(loss)`
whenever the exponentiation evaluates cleanly — a NaN loss yields NaN, +∞
yields +∞, −∞ yields 0 — and returns +∞ exactly on overflow, i.e. for finite
losses above the float overflow bound. -/
theorem C5_perplexity_characterization :
    (∀ q : ℚ, q ≤ expOverflowBound → getPerplexity (.finite q) = .expOf q) ∧
    (∀ q : ℚ, expOverflowBound < q → getPerplexity (.finite q) = .inf) ∧
    getPerplexity .nan = .nan ∧
    getPerplexity .inf = .inf ∧
    getPerplexity .neginf = .zero := by
  refine ⟨fun q h => ?_, fun q h => ?_, rfl, rfl, rfl⟩
  · simp [getPerplexity, mathExp, h]
  · simp [getPerplexity, mathExp, not_le.mpr h]

/-- Witness for C5: the characterization applied at the representable loss 0
and at the overflowing loss 710. -/
theorem C5_perplexity_characterization_witness :
    ((0:ℚ) ≤ expOverflowBound ∧ getPerplexity (.finite 0) = .expOf 0) ∧
    (expOverflowBound < 710 ∧ getPerplexity (.finite 710) = .inf) := by
  have h1 : (0:ℚ) ≤ expOverflowBound := by norm_num [expOverflowBound]
  have h2 : expOverflowBound < 710 := by norm_num [expOverflowBound]
  exact ⟨⟨h1, C5_perplexity_characterization.1 0 h1⟩,
    ⟨h2, C5_perplexity_characterization.2.1 710 h2⟩⟩

/-- C6: for a scorer holding exactly one example whose true ids decode to
"abc" and whose predicted ids decode to "abd" (no pad ids present, pad id
excluded from decoding), `compute` yields accuracy 2/3, edit distance 1 and
edit distance per character 1/3. -/
theorem C6_scorer_abc_abd :
    scorerCompute demoItos 0 [[3,4,5]] [[3,4,6]] [[3,4,5]]
      = some (2/3, 1, 1/3) := by
  simp [scorerCompute, accuracyScore, pymean, decodeIds, demoItos, levDist,
    levFuel, List.mapM.loop, List.countP, List.countP.go]

/-- C7: with a batch count of zero, both `_train_epoch` and `evaluate` end in
`loss = epoch_loss / iterator.batch_count` with a zero denominator, which
raises (`ZeroDivisionError`) rather than returning a Score with NaN or
infinite metrics. -/
theorem C7_zero_batches_raises (itos : ℕ → Char) (padIdx : ℕ)
    (trues preds srcs : List (List ℕ)) :
    trainEpochModel itos padIdx [] trues preds srcs = none ∧
    evaluateModel itos padIdx [] trues preds srcs = none := by
  constructor <;> rfl

/-- C8: if no checkpoint write ever happened during the run — e.g. because
every epoch's dev loss was +∞ or NaN — the final phase does not fail: the
`FileNotFoundError` from loading the missing checkpoint is caught, the run
reports that no model was saved, keeps the currently loaded weights
(no checkpoint load), and still saves the full archive. -/
theorem C8_missing_checkpoint_graceful (lrPatience : ℕ) (minLr : ℚ)
    (obs : List EpochObs)
    (h : ∀ e ∈ obs, e.devLoss = FloatVal.inf ∨ e.devLoss = FloatVal.nan) :
    (runModel lrPatience minLr obs).checkpointLoaded = false ∧
    (runModel lrPatience minLr obs).noModelReported = true ∧
    (runModel lrPatience minLr obs).archiveSaved = true := by
  have hw : ∀ e ∈ obs, tempSaveWrites FloatVal.inf e.devLoss = false := by
    intro e he
    rcases h e he with h' | h' <;> rw [h']
    · exact tempSaveWrites_of_inf _
    · exact tempSaveWrites_of_nan _
  have hany := runEpochs_any_wrote lrPatience minLr .inf obs hw
  have hlast : (obs.map EpochObs.devLoss).getLastD FloatVal.inf = FloatVal.inf
      ∨ (obs.map EpochObs.devLoss).getLastD FloatVal.inf = FloatVal.nan := by
    refine getLastD_prop (fun x => x = FloatVal.inf ∨ x = FloatVal.nan) _ _
      ?_ (Or.inl rfl)
    intro x hx
    obtain ⟨e, he, rfl⟩ := List.mem_map.mp hx
    exact h e he
  have hfinal : tempSaveWrites FloatVal.inf
      ((obs.map EpochObs.devLoss).getLastD FloatVal.inf) = false := by
    rcases hlast with h' | h' <;> rw [h']
    · exact tempSaveWrites_of_inf _
    · exact tempSaveWrites_of_nan _
  simp only [runModel]
  rw [hany, hfinal]
  simp

/-- Witness for C8: a two-epoch run whose dev losses are NaN then +∞ writes
no checkpoint, reports that no model was saved and still saves the archive. -/
theorem C8_missing_checkpoint_graceful_witness :
    (∀ e ∈ [EpochObs.mk FloatVal.nan 0 1, EpochObs.mk FloatVal.inf 3 (1/2)],
      e.devLoss = FloatVal.inf ∨ e.devLoss = FloatVal.nan) ∧
    ((runModel 1 1 [EpochObs.mk FloatVal.nan 0 1,
        EpochObs.mk FloatVal.inf 3 (1/2)]).checkpointLoaded = false ∧
      (runModel 1 1 [EpochObs.mk FloatVal.nan 0 1,
        EpochObs.mk FloatVal.inf 3 (1/2)]).noModelReported = true ∧
      (runModel 1 1 [EpochObs.mk FloatVal.nan 0 1,
        EpochObs.mk FloatVal.inf 3 (1/2)]).archiveSaved = true) :=
  ⟨by decide,
    C8_missing_checkpoint_graceful 1 1
      [EpochObs.mk FloatVal.nan 0 1, EpochObs.mk FloatVal.inf 3 (1/2)]
      (by decide)⟩

/-- C9: `register_batch` appends exactly
`min(len(hypotheses), len(targets), len(src))` entries to each accumulator,
in input order — targets into `trues`, hypotheses into `preds`, sources into
`srcs` — silently dropping the surplus of the longer inputs. -/
theorem C9_register_batch_truncates (s : ScorerAcc)
    (hypotheses targets src : List (List ℕ)) :
    (registerBatch s hypotheses targets src).trues
        = s.trues ++ targets.take
            (min hypotheses.length (min targets.length src.length)) ∧
    (registerBatch s hypotheses targets src).preds
        = s.preds ++ hypotheses.take
            (min hypotheses.length (min targets.length src.length)) ∧
    (registerBatch s hypotheses targets src).srcs
        = s.srcs ++ src.take
            (min hypotheses.length (min targets.length src.length)) := by
  obtain ⟨h1, h2, h3⟩ := zip3_maps targets hypotheses src
  have hmin : min targets.length (min hypotheses.length src.length)
      = min hypotheses.length (min targets.length src.length) := by omega
  rw [registerBatch, registerBatch_foldl, h1, h2, h3, hmin]
  exact ⟨rfl, rfl, rfl⟩

/-- C10: if some registered example's true id sequence decodes (pad ids
removed) to an empty text, `Scorer.compute` hits the division
`levenshteins[-1] / len(tr_true)` with a zero denominator and raises a
`ZeroDivisionError` instead of returning metric values.  (The length
hypothesis is the `register_batch` invariant: `trues` and `preds` grow in
lockstep.) -/
theorem C10_empty_decoded_true_raises (itos : ℕ → Char) (padIdx : ℕ)
    (trues preds srcs : List (List ℕ))
    (hlen : trues.length = preds.length)
    (h : ∃ t ∈ trues, decodeIds itos padIdx t = []) :
    scorerCompute itos padIdx trues preds srcs = none := by
  obtain ⟨t, ht, hdec⟩ := h
  obtain ⟨p, hp⟩ := zip_map_pair_mem
    (f := decodeIds itos padIdx) trues preds hlen t ht
  have hlpcs : ((trues.map (decodeIds itos padIdx)).zip
      (preds.map (decodeIds itos padIdx))).mapM
        (fun tp => if tp.1.length = 0 then none
          else some (((levDist tp.1 tp.2 : ℕ) : ℚ) / (tp.1.length : ℚ)))
      = none := by
    apply mapM_none
    exact ⟨(decodeIds itos padIdx t, decodeIds itos padIdx p), hp,
      by simp [hdec]⟩
  unfold scorerCompute
  split
  · rfl
  · split
    · rfl
    · next lpcs hlpcs' =>
      rw [hlpcs] at hlpcs'
      exact Option.noConfusion hlpcs'

/-- Witness for C10: one registered example whose true sequence is a single
pad id decodes to the empty text, and `compute` then fails. -/
theorem C10_empty_decoded_true_raises_witness :
    ([[0]] : List (List ℕ)).length = ([[5]] : List (List ℕ)).length ∧
    (∃ t ∈ ([[0]] : List (List ℕ)), decodeIds demoItos 0 t = []) ∧
    scorerCompute demoItos 0 [[0]] [[5]] [[0]] = none :=
  ⟨rfl, ⟨[0], List.mem_cons_self _ _, rfl⟩,
    C10_empty_decoded_true_raises demoItos 0 [[0]] [[5]] [[0]] rfl
      ⟨[0], List.mem_cons_self _ _, rfl⟩⟩
